import Mathlib

/-
Verification of the streaming session orchestrator of the newhorse repository.

Each definition is a shallow embedding of one Python function or code path,
named after its source symbol where possible:

  app/services/crypto.py            -> namespace Crypto
  app/services/cli/base.py          -> namespace BaseCLI
  app/services/cli/runners/openai_runner.py -> namespace OpenAIR
  app/services/cli/runners/router.py -> namespace Router
  app/api/chat.py                   -> namespace ChatWs

Python strings are modeled as Lean String; Python dicts of strings as
association lists; SQL tables as Lean lists in row order; `None` as
Option.none.  Python truthiness of an optional string (None and "" are both
falsy) is modeled by `truthy` below.
-/

/-- Truthiness of an optional string in Python: `None` and `""` are falsy. -/
def truthy : Option String → Bool
  | none => false
  | some s => s != ""

/-- Model of Python `str.lower()` over code points (ASCII case mapping). -/
def pyLower (s : String) : String := String.mk (s.data.map Char.toLower)

/-- Model of Python `path.split("/")` over code points. -/
def pySplitSlash (s : String) : List String := (s.data.splitOn '/').map String.mk

/-- Model of Python `str.strip()`: leading and trailing whitespace removed. -/
def pyStrip (s : String) : String :=
  String.mk (((s.data.dropWhile Char.isWhitespace).reverse.dropWhile Char.isWhitespace).reverse)

/-- Code-point membership of a character in a string. -/
def pyContains (s : String) (c : Char) : Bool := s.data.contains c

namespace Crypto

/-- Model of the external `cryptography.fernet.Fernet` collaborator
(crypto.py line 5).  The library contract: decrypting a token produced by
`encrypt` recovers the plaintext, tokens are never the empty string, and
`decrypt` on a non-token raises `InvalidToken`, modeled by `dec` returning
`none`. -/
structure FernetScheme where
  enc : String → String
  dec : String → Option String
  dec_enc : ∀ s, dec (enc s) = some s
  enc_ne : ∀ s, enc s ≠ ""

/-- Model of `_get_fernet()` (crypto.py lines 11-19): `none` covers both an
unset and an invalid `ENCRYPTION_KEY`. -/
def encrypt_api_key (fern : Option FernetScheme) (plaintext : String) : String :=
  if plaintext = "" then ""
  else
    match fern with
    | none => plaintext
    | some f => f.enc plaintext

/-- Embedding of `decrypt_api_key` (crypto.py lines 32-43): empty input maps
to `""`; with no key configured the input is returned as-is; otherwise a
failed decryption (InvalidToken) also returns the input as-is. -/
def decrypt_api_key (fern : Option FernetScheme) (ciphertext : String) : String :=
  if ciphertext = "" then ""
  else
    match fern with
    | none => ciphertext
    | some f =>
      match f.dec ciphertext with
      | some pt => pt
      | none => ciphertext

/-- Embedding of `mask_api_key` (crypto.py lines 46-52). -/
def mask_api_key (key : String) : String :=
  if key = "" then ""
  else if key.length ≤ 12 then "***"
  else key.take 12 ++ "***"

/-- Property "`v` is not a valid ciphertext" relative to the configured key:
with no key configured every value counts as legacy plaintext. -/
def notCiphertext (fern : Option FernetScheme) (v : String) : Prop :=
  ∀ f, fern = some f → f.dec v = none

/-- Concrete Fernet-like scheme used to instantiate the crypto theorems:
tokens are the plaintext tagged with a leading `!` character. -/
def tagScheme : FernetScheme where
  enc s := String.mk ('!' :: s.data)
  dec s :=
    match s.data with
    | '!' :: rest => some (String.mk rest)
    | _ => none
  dec_enc s := rfl
  enc_ne s := by
    intro h
    have hd := congrArg String.data h
    simp at hd

end Crypto

namespace BaseCLI

/-- Embedding of the `seconds >= 60` false branch's `f"{seconds:.2f}s"`
rendering, with `seconds = duration_ms / 1000` (base.py line 367 and
openai_runner.py line 96).  The input is a whole number of milliseconds, as
produced by the SDK and by `int((time.time() - start) * 1000)`; the binary
float rounding of CPython's `:.2f` is modeled by exact decimal rounding
half-to-even, which agrees with CPython on every input whose centisecond
remainder is not an exact tie. -/
def format2f (ms : Nat) : String :=
  let q := ms / 10
  let r := ms % 10
  let cs := if r < 5 then q else if 5 < r then q + 1 else if q % 2 = 0 then q else q + 1
  let frac := cs % 100
  toString (cs / 100) ++ "." ++ (if frac < 10 then "0" ++ toString frac else toString frac)

/-- Embedding of the `f"{remaining:.1f}"` rendering of `remaining = seconds % 60`
(base.py line 366), on the remainder expressed in milliseconds; rounding
modeled as in `format2f`. -/
def format1f (ms : Nat) : String :=
  let q := ms / 100
  let r := ms % 100
  let ds := if r < 50 then q else if 50 < r then q + 1 else if q % 2 = 0 then q else q + 1
  toString (ds / 10) ++ "." ++ toString (ds % 10)

/-- Embedding of `BaseCLI._format_duration` (base.py lines 359-368) on a whole
number of milliseconds.  `seconds >= 60` iff `ms >= 60000`,
`minutes = int(seconds // 60) = ms / 60000`, and `seconds % 60` corresponds to
`ms % 60000` milliseconds. -/
def format_duration (duration_ms : Nat) : String :=
  if 1000 ≤ duration_ms then
    if 60000 ≤ duration_ms then
      toString (duration_ms / 60000) ++ "m " ++ format1f (duration_ms % 60000) ++ "s"
    else
      format2f duration_ms ++ "s"
  else
    toString duration_ms ++ "ms"

end BaseCLI

/-- C7: for every non-empty secret the crypto pair round-trips
(`decrypt_api_key (encrypt_api_key s) = s`), whether or not an encryption key
is configured, and any value that is not a valid ciphertext is returned
unchanged by `decrypt_api_key`. -/
theorem crypto_roundtrip_and_legacy (fern : Option Crypto.FernetScheme)
    (s v : String) (hs : s ≠ "") (hv : Crypto.notCiphertext fern v) :
    Crypto.decrypt_api_key fern (Crypto.encrypt_api_key fern s) = s ∧
    Crypto.decrypt_api_key fern v = v := by
  constructor
  · cases fern with
    | none =>
      simp [Crypto.encrypt_api_key, Crypto.decrypt_api_key, hs]
    | some f =>
      simp only [Crypto.encrypt_api_key, Crypto.decrypt_api_key, if_neg hs]
      rw [if_neg (f.enc_ne s), f.dec_enc]
  · by_cases hve : v = ""
    · simp [Crypto.decrypt_api_key, hve]
    · cases fern with
      | none => simp [Crypto.decrypt_api_key, hve]
      | some f =>
        have hdec := hv f rfl
        simp [Crypto.decrypt_api_key, hve, hdec]

/-- Witness for C7: the round trip and the legacy fallback evaluated on the
concrete tag scheme with secret `"sk-test-key-12345"` and legacy value
`"plain-legacy"`. -/
theorem crypto_roundtrip_and_legacy_witness :
    Crypto.decrypt_api_key (some Crypto.tagScheme)
        (Crypto.encrypt_api_key (some Crypto.tagScheme) "sk-test-key-12345") =
      "sk-test-key-12345" ∧
    Crypto.decrypt_api_key (some Crypto.tagScheme) "plain-legacy" = "plain-legacy" :=
  crypto_roundtrip_and_legacy (some Crypto.tagScheme) "sk-test-key-12345" "plain-legacy"
    (by decide)
    (by intro f hf; cases hf; rfl)

/-- C10: `mask_api_key` returns `""` on empty input, exactly `"***"` on any
key of length at most 12, and the first 12 characters followed by `"***"` on
longer keys, so its output never exposes more than the first 12 characters. -/
theorem mask_api_key_spec (k : String) :
    (k = "" → Crypto.mask_api_key k = "") ∧
    (k ≠ "" → k.length ≤ 12 → Crypto.mask_api_key k = "***") ∧
    (12 < k.length → Crypto.mask_api_key k = k.take 12 ++ "***") := by
  refine ⟨?_, ?_, ?_⟩
  · intro h; simp [Crypto.mask_api_key, h]
  · intro h hl; simp [Crypto.mask_api_key, h, hl]
  · intro hl
    have hne : k ≠ "" := by
      intro h
      rw [h] at hl
      simp at hl
    simp [Crypto.mask_api_key, hne, Nat.not_le.mpr hl]

/-- Witness for C10: the three cases evaluated at `""`, `"short"` and a
19-character key. -/
theorem mask_api_key_spec_witness :
    Crypto.mask_api_key "" = "" ∧
    Crypto.mask_api_key "short" = "***" ∧
    Crypto.mask_api_key "sk-ant-api03-abcdef" = "sk-ant-api03" ++ "***" := by
  refine ⟨(mask_api_key_spec "").1 rfl, ?_, ?_⟩
  · exact (mask_api_key_spec "short").2.1 (by decide) (by decide)
  · have h := (mask_api_key_spec "sk-ant-api03-abcdef").2.2 (by decide)
    rw [h]
    rfl

/-- C9: `_format_duration` renders whole milliseconds with an `ms` suffix
below 1000, seconds to two decimals below one minute, and otherwise whole
minutes plus one-decimal seconds; in particular 650 renders as `"650ms"`,
12340 as `"12.34s"` and 125000 as `"2m 5.0s"`. -/
theorem format_duration_spec (ms : Nat) :
    (ms < 1000 → BaseCLI.format_duration ms = toString ms ++ "ms") ∧
    (1000 ≤ ms → ms < 60000 →
      BaseCLI.format_duration ms = BaseCLI.format2f ms ++ "s") ∧
    (60000 ≤ ms →
      BaseCLI.format_duration ms =
        toString (ms / 60000) ++ "m " ++ BaseCLI.format1f (ms % 60000) ++ "s") ∧
    BaseCLI.format_duration 650 = "650ms" ∧
    BaseCLI.format_duration 12340 = "12.34s" ∧
    BaseCLI.format_duration 125000 = "2m 5.0s" := by
  refine ⟨?_, ?_, ?_, by rfl, by rfl, by rfl⟩
  · intro h
    simp [BaseCLI.format_duration, Nat.not_le.mpr h]
  · intro h1 h2
    simp [BaseCLI.format_duration, h1, Nat.not_le.mpr h2]
  · intro h
    have h1 : 1000 ≤ ms := le_trans (by norm_num) h
    simp [BaseCLI.format_duration, h1, h]

/-- Witness for C9: the general cases applied at 650, 12340 and 125000. -/
theorem format_duration_spec_witness :
    BaseCLI.format_duration 650 = toString 650 ++ "ms" ∧
    BaseCLI.format_duration 12340 = BaseCLI.format2f 12340 ++ "s" ∧
    BaseCLI.format_duration 125000 =
      toString (125000 / 60000) ++ "m " ++ BaseCLI.format1f (125000 % 60000) ++ "s" :=
  ⟨(format_duration_spec 650).1 (by norm_num),
   (format_duration_spec 12340).2.1 (by norm_num) (by norm_num),
   (format_duration_spec 125000).2.2.1 (by norm_num)⟩

namespace BaseCLI

/-- Embedding of the synonym dict literal inside `BaseCLI._normalize_tool_name`
(base.py lines 348-356). -/
def synonymTable : List (String × String) :=
  [("read_file", "Read"), ("read", "Read"),
   ("write_file", "Write"), ("write", "Write"),
   ("edit_file", "Edit"), ("edit", "Edit"),
   ("shell", "Bash"), ("run_terminal_command", "Bash"),
   ("search_file_content", "Grep"), ("grep", "Grep"),
   ("find_files", "Glob"), ("glob", "Glob"),
   ("web_search", "WebSearch"), ("google_web_search", "WebSearch")]

/-- Embedding of `BaseCLI._normalize_tool_name` (base.py lines 346-357):
`mapping.get(tool_name.lower(), tool_name)`. -/
def normalize_tool_name (tool_name : String) : String :=
  match synonymTable.lookup (pyLower tool_name) with
  | some t => t
  | none => tool_name

/-- Embedding of `tool_input.get(k1) or tool_input.get(k2, "")` (base.py
line 299 and the like): a present-but-empty first key falls through, matching
Python truthiness of `or`. -/
def getOrKey (tool_input : List (String × String)) (k1 k2 : String) : String :=
  let v1 := (tool_input.lookup k1).getD ""
  if v1 = "" then (tool_input.lookup k2).getD "" else v1

/-- Embedding of `path.split("/")[-1] if path else "file"` (base.py line 300). -/
def basenameOr (path : String) : String :=
  if path = "" then "file" else (pySplitSlash path).getLastD ""

/-- Embedding of `BaseCLI._create_tool_summary` (base.py lines 294-326). -/
def create_tool_summary (tool_name : String) (tool_input : List (String × String)) : String :=
  let normalized := normalize_tool_name tool_name
  if normalized = "Read" then
    "📖 **Read** `" ++ basenameOr (getOrKey tool_input "file_path" "path") ++ "`"
  else if normalized = "Write" then
    "✏️ **Write** `" ++ basenameOr (getOrKey tool_input "file_path" "path") ++ "`"
  else if normalized = "Edit" then
    "📝 **Edit** `" ++ basenameOr (getOrKey tool_input "file_path" "path") ++ "`"
  else if normalized = "Bash" then
    let cmd := ((tool_input.lookup "command").getD "").take 40
    if cmd.length = 40 then "**Bash** `" ++ cmd ++ "...`" else "**Bash** `" ++ cmd ++ "`"
  else if normalized = "Grep" then
    "🔍 **Search** `" ++ (tool_input.lookup "pattern").getD "" ++ "`"
  else if normalized = "Glob" then
    "🔍 **Glob** `" ++ (tool_input.lookup "pattern").getD "" ++ "`"
  else if normalized = "WebSearch" then
    "🌐 **WebSearch** `" ++ ((tool_input.lookup "query").getD "").take 40 ++ "`"
  else if normalized = "Task" then
    "🤖 **Task** `" ++ ((tool_input.lookup "description").getD "").take 40 ++ "`"
  else
    "**" ++ tool_name ++ "** `executing...`"

end BaseCLI

/-- C8: tool-name normalization maps the fixed synonym table through the
lowercased name (hence case-insensitively) and passes every unmapped name
through unchanged; listed synonyms land on their labels, and the `read_file`
invocation on `/a/b/report.md` yields a summary labeled `Read` that shows only
the filename, containing no path separator. -/
theorem tool_name_normalization_spec :
    (∀ s t, BaseCLI.synonymTable.lookup (pyLower s) = some t →
      BaseCLI.normalize_tool_name s = t) ∧
    (∀ s, BaseCLI.synonymTable.lookup (pyLower s) = none →
      BaseCLI.normalize_tool_name s = s) ∧
    (BaseCLI.normalize_tool_name "read_file" = "Read" ∧
     BaseCLI.normalize_tool_name "READ" = "Read" ∧
     BaseCLI.normalize_tool_name "Shell" = "Bash" ∧
     BaseCLI.normalize_tool_name "RUN_TERMINAL_COMMAND" = "Bash" ∧
     BaseCLI.normalize_tool_name "search_file_content" = "Grep" ∧
     BaseCLI.normalize_tool_name "GrEp" = "Grep" ∧
     BaseCLI.normalize_tool_name "write_file" = "Write" ∧
     BaseCLI.normalize_tool_name "edit" = "Edit" ∧
     BaseCLI.normalize_tool_name "find_files" = "Glob" ∧
     BaseCLI.normalize_tool_name "google_web_search" = "WebSearch" ∧
     BaseCLI.normalize_tool_name "SomeCustomTool" = "SomeCustomTool") ∧
    (BaseCLI.create_tool_summary "read_file" [("file_path", "/a/b/report.md")] =
       "📖 **Read** `report.md`" ∧
     pyContains "📖 **Read** `report.md`" '/' = false) := by
  refine ⟨?_, ?_, ?_, ?_⟩
  · intro s t h
    simp [BaseCLI.normalize_tool_name, h]
  · intro s h
    simp [BaseCLI.normalize_tool_name, h]
  · exact ⟨by decide, by decide, by decide, by decide, by decide, by decide,
      by decide, by decide, by decide, by decide, by decide⟩
  · exact ⟨by decide, by decide⟩

/-- Witness for C8: the mapped and the pass-through cases applied at
`"SHELL"` and `"mytool"`. -/
theorem tool_name_normalization_spec_witness :
    BaseCLI.normalize_tool_name "SHELL" = "Bash" ∧
    BaseCLI.normalize_tool_name "mytool" = "mytool" :=
  ⟨tool_name_normalization_spec.1 "SHELL" "Bash" (by decide),
   tool_name_normalization_spec.2.1 "mytool" (by decide)⟩

/-- Normalized conversational message as far as the claims inspect it:
`role`, `message_type` and `content` of `app.models.messages.Message`
(ids, timestamps and metadata are not inspected by any claim). -/
structure Msg where
  role : String
  mtype : String
  content : String
deriving DecidableEq

namespace OpenAIR

/-- Model of Python `f"{n:,}"`: decimal digits grouped in threes by commas,
working over the reversed digit list. -/
def groupRev : List Char → List Char
  | a :: b :: c :: d :: rest => a :: b :: c :: ',' :: groupRev (d :: rest)
  | l => l
termination_by l => l.length

/-- Thousands-separated rendering of a natural number (`f"{total:,}"`,
openai_runner.py line 89). -/
def commaGroup (n : Nat) : String :=
  String.mk (groupRev (toString n).data.reverse).reverse

/-- Model of one chunk of the streaming completion (openai_runner.py lines
65-69): `delta_content` is `chunk.choices[0].delta.content` collapsed over the
`chunk.choices` / `delta` / `delta.content` truthiness guards, and `usage` is
`(prompt_tokens, completion_tokens)` when the chunk carries a truthy usage
object. -/
structure Chunk where
  delta_content : Option String
  usage : Option (Nat × Nat)
deriving DecidableEq

/-- Accumulation of `full_content` over the chunk loop (lines 65-69). -/
def accumContent (chunks : List Chunk) : String :=
  chunks.foldl (fun acc c => acc ++ c.delta_content.getD "") ""

/-- Usage of `last_chunk` after the loop (lines 86-89). -/
def usageOfLast (chunks : List Chunk) : Option (Nat × Nat) :=
  match chunks.getLast? with
  | some c => c.usage
  | none => none

/-- Embedding of `OpenAIRunner.stream_response` (openai_runner.py lines
19-117).  The network interaction is abstracted into its observable result:
either the chunk sequence the stream delivered before completing, or the
exception text when `client.chat.completions.create` or the iteration raises
(in which case nothing has been yielded yet, since both `yield` statements
come after the loop); `duration_ms` stands for
`int((time.time() - start) * 1000)`. -/
def stream_response (streamResult : Except String (List Chunk)) (duration_ms : Nat) :
    List Msg :=
  match streamResult with
  | .ok chunks =>
    let full := accumContent chunks
    let chatPart : List Msg :=
      if pyStrip full = "" then []
      else [{ role := "assistant", mtype := "chat", content := pyStrip full }]
    let usage_str :=
      match usageOfLast chunks with
      | some (pt, ct) => " | Tokens: " ++ commaGroup (pt + ct)
      | none => ""
    chatPart ++
      [{ role := "system", mtype := "session_complete",
         content := "Session complete, " ++ BaseCLI.format2f duration_ms ++ "s" ++ usage_str }]
  | .error e =>
    [{ role := "system", mtype := "error", content := "Model error: " ++ e }]

end OpenAIR

/-- C6: on successful stream completion the turn-based runner emits exactly
one `chat` Message iff the accumulated text is non-empty after trimming,
exactly one `session_complete` Message which is always the last Message, and
no `error`; on a transport/backend error it emits exactly one `error` Message
and nothing else. -/
theorem openai_runner_emissions (chunks : List OpenAIR.Chunk) (d : Nat) (e : String) :
    ((OpenAIR.stream_response (.ok chunks) d).countP (fun m => m.mtype == "session_complete") = 1 ∧
     ((OpenAIR.stream_response (.ok chunks) d).getLast?).map Msg.mtype = some "session_complete" ∧
     (OpenAIR.stream_response (.ok chunks) d).countP (fun m => m.mtype == "chat") =
       (if pyStrip (OpenAIR.accumContent chunks) = "" then 0 else 1) ∧
     (OpenAIR.stream_response (.ok chunks) d).countP (fun m => m.mtype == "error") = 0) ∧
    OpenAIR.stream_response (.error e) d =
      [{ role := "system", mtype := "error", content := "Model error: " ++ e }] := by
  constructor
  · by_cases h : pyStrip (OpenAIR.accumContent chunks) = "" <;>
      simp [OpenAIR.stream_response, h, List.countP_cons]
  · rfl

namespace Router

/-- Row of the `providers` table (app/models/provider.py) as read by the
router: `api_key` is the encrypted column, nullable. -/
structure Provider where
  id : String
  name : String
  protocol : String
  base_url : Option String
  api_key : Option String
  enabled : Bool
  is_builtin : Bool
deriving DecidableEq

/-- Row of the `provider_models` table. -/
structure ProviderModel where
  provider_id : String
  model_id : String
  is_default : Bool
deriving DecidableEq

/-- Columns of the `projects` table consulted by the router. -/
structure Project where
  id : String
  override_provider_id : Option String
  selected_model : Option String
  override_api_key : Option String
deriving DecidableEq

/-- Database contents as the router queries them, rows in table order
(unordered SQL `.first()` is modeled as the first row in table order). -/
structure Db where
  providers : List Provider
  provider_models : List ProviderModel
  projects : List Project
deriving DecidableEq

/-- Resolved route dict returned by `ProviderRouter.resolve`
(router.py lines 92-99). -/
structure Route where
  provider_id : String
  provider_name : String
  protocol : String
  base_url : Option String
  api_key : String
  model_id : Option String
deriving DecidableEq

/-- Project lookup at router.py lines 40-41. -/
def projectOf (db : Db) (project_id : Option String) : Option Project :=
  if truthy project_id then db.projects.find? (fun p => p.id == project_id.getD "")
  else none

/-- Step 4 of the resolution order (router.py lines 63-67): first enabled
provider whose `api_key` column is non-NULL, ordered builtin first
(`order_by(Provider.is_builtin.desc()).first()` as a stable reordering of
table order). -/
def step4 (db : Db) : Option Provider :=
  match (db.providers.filter (fun p => p.enabled && p.api_key.isSome)).find?
      (fun p => p.is_builtin) with
  | some p => some p
  | none => (db.providers.filter (fun p => p.enabled && p.api_key.isSome)).head?

/-- Steps 1-4 of provider selection in `ProviderRouter.resolve`
(router.py lines 43-67). -/
def pickProvider (db : Db) (project : Option Project)
    (model_id provider_id : Option String) : Option Provider :=
  -- Step 1: explicit provider_id, if enabled
  let p1 : Option Provider :=
    if truthy provider_id then
      db.providers.find? (fun p => p.id == provider_id.getD "" && p.enabled)
    else none
  match p1 with
  | some p => some p
  | none =>
    -- Step 2: project override_provider_id, if enabled
    let p2 : Option Provider :=
      match project with
      | some proj =>
        if truthy proj.override_provider_id then
          db.providers.find? (fun p => p.id == proj.override_provider_id.getD "" && p.enabled)
        else none
      | none => none
    match p2 with
    | some p => some p
    | none =>
      -- Step 3: provider owning the explicit model_id
      let p3 : Option Provider :=
        if truthy model_id then
          match db.provider_models.find? (fun pm => pm.model_id == model_id.getD "") with
          | some pm => db.providers.find? (fun p => p.id == pm.provider_id && p.enabled)
          | none => none
        else none
      match p3 with
      | some p => some p
      | none => step4 db

/-- Catalog default model of a provider (router.py lines 79-83). -/
def defaultModel (db : Db) (provider : Provider) : Option String :=
  (db.provider_models.find? (fun pm => pm.provider_id == provider.id && pm.is_default)).map
    (fun pm => pm.model_id)

/-- Model selection once a provider is fixed (router.py lines 73-83):
explicit `model_id` if truthy, else the project's `selected_model` if truthy,
else the provider's catalog default, else `none`. -/
def resolveModel (db : Db) (project : Option Project) (provider : Provider)
    (model_id : Option String) : Option String :=
  if truthy model_id then model_id
  else
    match project with
    | some proj =>
      if truthy proj.selected_model then proj.selected_model
      else defaultModel db provider
    | none => defaultModel db provider

/-- Credential selection (router.py lines 85-90): project override first, then
the provider's own key, both decrypted just-in-time; otherwise `""`. -/
def resolveKey (fern : Option Crypto.FernetScheme) (project : Option Project)
    (provider : Provider) : String :=
  match project with
  | some proj =>
    if truthy proj.override_api_key then
      Crypto.decrypt_api_key fern (proj.override_api_key.getD "")
    else if truthy provider.api_key then
      Crypto.decrypt_api_key fern (provider.api_key.getD "")
    else ""
  | none =>
    if truthy provider.api_key then Crypto.decrypt_api_key fern (provider.api_key.getD "")
    else ""

/-- Embedding of `ProviderRouter.resolve` (router.py lines 19-101). -/
def resolve (fern : Option Crypto.FernetScheme) (db : Db)
    (model_id provider_id project_id : Option String) : Option Route :=
  let project := projectOf db project_id
  match pickProvider db project model_id provider_id with
  | none => none
  | some provider =>
    some { provider_id := provider.id,
           provider_name := provider.name,
           protocol := provider.protocol,
           base_url := provider.base_url,
           api_key := resolveKey fern project provider,
           model_id := resolveModel db project provider model_id }

/-- Runner variants produced by `ProviderRouter.get_runner` (router.py lines
103-118): the `anthropic` protocol and unknown protocols both return `None`. -/
inductive RunnerKind where
  | openai (api_key : String) (base_url : Option String)
deriving DecidableEq

/-- Embedding of `ProviderRouter.get_runner`. -/
def get_runner (r : Route) : Option RunnerKind :=
  if r.protocol == "openai" then some (.openai r.api_key r.base_url) else none

end Router

/-- Enabled builtin provider whose stored credential is the empty string
(non-NULL), used against C4. -/
def provEmptyCred : Router.Provider :=
  { id := "p1", name := "P1", protocol := "openai", base_url := none,
    api_key := some "", enabled := true, is_builtin := true }

/-- Database containing only `provEmptyCred`. -/
def dbEmptyCred : Router.Db :=
  { providers := [provEmptyCred], provider_models := [], projects := [] }

/-- Counterexample to C4 as stated: with a single enabled provider whose
stored credential is the empty string, resolution does not fail — it returns
a route whose credential is `""`, and `get_runner` turns that route into a
runner, so the route is used to drive a Runner; the global-default step
selected a provider without a non-empty credential. -/
theorem resolve_empty_credential_counterexample :
    Router.resolve none dbEmptyCred none none none =
      some { provider_id := "p1", provider_name := "P1", protocol := "openai",
             base_url := none, api_key := "", model_id := none } ∧
    Router.get_runner
        { provider_id := "p1", provider_name := "P1", protocol := "openai",
          base_url := none, api_key := "", model_id := none } =
      some (.openai "" none) := by
  decide

/-- C4 amended: resolution never fails on an empty or absent credential; the
route is returned with `api_key` as computed by the credential-selection rule
(possibly `""`) for whatever provider was picked, and the global-default step
only guarantees an enabled provider whose stored `api_key` column is non-NULL
(which may still be the empty string). -/
theorem resolve_credential_policy (fern : Option Crypto.FernetScheme) (db : Router.Db)
    (mid vid pid : Option String) :
    (∀ p, Router.step4 db = some p → p.enabled = true ∧ p.api_key.isSome = true) ∧
    (∀ p, Router.pickProvider db (Router.projectOf db pid) mid vid = some p →
      Router.resolve fern db mid vid pid =
        some { provider_id := p.id, provider_name := p.name, protocol := p.protocol,
               base_url := p.base_url,
               api_key := Router.resolveKey fern (Router.projectOf db pid) p,
               model_id := Router.resolveModel db (Router.projectOf db pid) p mid }) := by
  constructor
  · intro p hp
    unfold Router.step4 at hp
    have hmem : p ∈ db.providers.filter (fun q => q.enabled && q.api_key.isSome) := by
      rcases hfind : (db.providers.filter (fun q => q.enabled && q.api_key.isSome)).find?
          (fun q => q.is_builtin) with _ | q
      · rw [hfind] at hp
        simp only at hp
        rcases hl : db.providers.filter (fun q => q.enabled && q.api_key.isSome) with _ | ⟨c, cs⟩
        · rw [hl] at hp; simp at hp
        · rw [hl] at hp
          simp only [List.head?] at hp
          cases hp
          rw [hl]
          exact List.mem_cons_self _ _
      · rw [hfind] at hp
        simp only at hp
        cases hp
        exact List.mem_of_find?_eq_some hfind
    have := List.mem_filter.mp hmem
    have hb := this.2
    simp only [Bool.and_eq_true] at hb
    exact ⟨hb.1, hb.2⟩
  · intro p hp
    simp only [Router.resolve, hp]

/-- Witness for C4's amended theorem: the step-4 guarantee and the returned
route evaluated on `dbEmptyCred`. -/
theorem resolve_credential_policy_witness :
    (provEmptyCred.enabled = true ∧ provEmptyCred.api_key.isSome = true) ∧
    Router.resolve none dbEmptyCred none none none =
      some { provider_id := provEmptyCred.id, provider_name := provEmptyCred.name,
             protocol := provEmptyCred.protocol, base_url := provEmptyCred.base_url,
             api_key := Router.resolveKey none (Router.projectOf dbEmptyCred none) provEmptyCred,
             model_id :=
               Router.resolveModel dbEmptyCred (Router.projectOf dbEmptyCred none)
                 provEmptyCred none } :=
  ⟨(resolve_credential_policy none dbEmptyCred none none none).1 provEmptyCred (by decide),
   (resolve_credential_policy none dbEmptyCred none none none).2 provEmptyCred (by decide)⟩

/-- Enabled provider with a real credential but no catalog default model,
used against C5. -/
def provNoDefault : Router.Provider :=
  { id := "p2", name := "P2", protocol := "openai", base_url := none,
    api_key := some "k", enabled := true, is_builtin := false }

/-- Database containing only `provNoDefault`, with an empty model catalog. -/
def dbNoModel : Router.Db :=
  { providers := [provNoDefault], provider_models := [], projects := [] }

/-- Counterexample to C5 as stated: with no explicit model, no conversation
default and no catalog default, resolution does not fail with a NoModel
error — it returns a usable route whose `model_id` is `None`, and that route
still yields a runner. -/
theorem resolve_no_model_counterexample :
    Router.resolve none dbNoModel none none none =
      some { provider_id := "p2", provider_name := "P2", protocol := "openai",
             base_url := none, api_key := "k", model_id := none } ∧
    Router.get_runner
        { provider_id := "p2", provider_name := "P2", protocol := "openai",
          base_url := none, api_key := "k", model_id := none } =
      some (.openai "k" none) := by
  decide

/-- C5 amended: once a provider is fixed, the route's model is the explicit
`model_id` if truthy, else the project's `selected_model` if truthy, else the
provider's catalog-marked default; if none of these exists the route is still
returned, with `model_id = none` — resolution does not fail. -/
theorem resolve_model_selection (fern : Option Crypto.FernetScheme) (db : Router.Db)
    (mid vid pid : Option String) :
    ∀ p r, Router.pickProvider db (Router.projectOf db pid) mid vid = some p →
      Router.resolve fern db mid vid pid = some r →
      r.model_id =
        (if truthy mid then mid
         else
           match Router.projectOf db pid with
           | some proj =>
             if truthy proj.selected_model then proj.selected_model
             else Router.defaultModel db p
           | none => Router.defaultModel db p) := by
  intro p r hp hr
  simp only [Router.resolve, hp, Option.some.injEq] at hr
  rw [← hr]
  rfl

/-- Project carrying a conversation-level default model, for the C5 witness. -/
def projSelModel : Router.Project :=
  { id := "proj1", override_provider_id := none,
    selected_model := some "m-sel", override_api_key := none }

/-- Database pairing `provNoDefault` with `projSelModel`. -/
def dbSelModel : Router.Db :=
  { providers := [provNoDefault], provider_models := [], projects := [projSelModel] }

/-- Witness for C5's amended theorem: with no explicit model the route takes
the project's `selected_model`. -/
theorem resolve_model_selection_witness :
    ({ provider_id := "p2", provider_name := "P2", protocol := "openai",
       base_url := none, api_key := "k",
       model_id := some "m-sel" } : Router.Route).model_id =
      (if truthy none then none
       else
         match Router.projectOf dbSelModel (some "proj1") with
         | some proj =>
           if truthy proj.selected_model then proj.selected_model
           else Router.defaultModel dbSelModel provNoDefault
         | none => Router.defaultModel dbSelModel provNoDefault) :=
  resolve_model_selection none dbSelModel none none (some "proj1") provNoDefault
    { provider_id := "p2", provider_name := "P2", protocol := "openai",
      base_url := none, api_key := "k", model_id := some "m-sel" }
    (by decide) (by decide)

namespace ChatWs

/-- Per-conversation registry entries of chat.py as the stop and instruction
paths read them: `cancelRequested` is `project_id ∈ cancelled_projects`
(execution_state.py line 7), `executing` is `project_id ∈ executing_agent`
(chat.py line 68). -/
structure ConvState where
  cancelRequested : Bool
  executing : Bool
deriving DecidableEq

/-- Embedding of the stop-action branch of `websocket_endpoint` (chat.py
lines 86-126).  `interruptOk` abstracts whether `await
executing_agent[project_id].interrupt()` returns normally or raises.  The
result is the list of emitted message kinds, whether an interrupt was
attempted, and the updated conversation state. -/
def handleStop (s : ConvState) (interruptOk : Bool) :
    List String × Bool × ConvState :=
  -- cancelled_projects.add(project_id)
  let s1 : ConvState := { s with cancelRequested := true }
  if s1.executing then
    if interruptOk then (["stopped"], true, s1)
    else (["error"], true, s1)
  else
    (["stopped"], false, s1)

/-- Observable outcome of one generation (the try-block of chat.py lines
196-273): either the agent/runner streamed a list of message kinds, or the
block raised and the handler of lines 274-303 emitted one error Message. -/
inductive GenOutcome where
  | ok (msgs : List String)
  | exn
deriving DecidableEq

/-- Embedding of the instruction-processing path of `websocket_endpoint`
(chat.py lines 128-307) as it touches the registry: the agent is stored in
`executing_agent` before streaming (line 167), the emitted kinds come from
the try-block or the except-handler, and the `finally` clause (lines
304-307) pops `executing_agent` and discards the cancelled flag whatever the
outcome was. -/
def handleInstruction (s : ConvState) (outcome : GenOutcome) :
    List String × ConvState :=
  let s1 : ConvState := { s with executing := true }
  let emitted : List String :=
    match outcome with
    | .ok msgs => msgs
    | .exn => ["error"]
  -- finally: executing_agent.pop(project_id, None); cancelled_projects.discard(project_id)
  (emitted, { s1 with executing := false, cancelRequested := false })

/-- Embedding of the turn for a conversation whose provider resolution found
no route (chat.py lines 186-307 with `resolved = None`): `runner` is `None`,
so control reaches the agent branch, whose call
`agent.execute_with_streaming(..., agent_type=agent_type, locale=locale)`
(lines 240-249) passes two keyword arguments that
`BaseCLI.execute_with_streaming` (base.py lines 78-90) does not declare.
Python therefore raises `TypeError` at the call, before any message is
streamed, and the except-handler (lines 274-303) pops
`session_store[project_id]` and emits exactly one error Message.  The input
is the stored upstream handle; the output is the list of emitted message
kinds and the handle after the turn. -/
def handleTurnNoProvider (_sessionStore : Option String) : List String × Option String :=
  (["error"], none)

end ChatWs

/-- Counterexample to C2 as stated: a stop request while a generation is in
flight whose interrupt call raises emits an `error` Message and zero
`stopped` Messages; and a stop request with no generation in flight leaves
`cancel_requested` set, so it is not cleared before the next instruction on
the conversation is processed (it is only discarded when that instruction's
generation ends). -/
theorem stop_request_counterexample :
    (ChatWs.handleStop { cancelRequested := false, executing := true } false).1.count
        "stopped" = 0 ∧
    (ChatWs.handleStop { cancelRequested := false, executing := false } true).2.2.cancelRequested
      = true := by
  decide

/-- C2 amended: a stop request emits exactly one `stopped` Message when no
generation is in flight (attempting no interrupt) or when the interrupt call
returns normally, but exactly one `error` Message instead when the interrupt
call raises; the cancel flag is set by the stop request and is cleared
unconditionally when a generation ends, whatever its outcome. -/
theorem stop_request_and_flag_clearing (s : ChatWs.ConvState) (iok : Bool)
    (outcome : ChatWs.GenOutcome) :
    (s.executing = false →
      ChatWs.handleStop s iok =
        (["stopped"], false, { s with cancelRequested := true })) ∧
    (s.executing = true → iok = true →
      (ChatWs.handleStop s iok).1 = ["stopped"] ∧ (ChatWs.handleStop s iok).2.1 = true) ∧
    (s.executing = true → iok = false →
      (ChatWs.handleStop s iok).1 = ["error"] ∧ (ChatWs.handleStop s iok).2.1 = true) ∧
    ((ChatWs.handleInstruction s outcome).2.cancelRequested = false ∧
     (ChatWs.handleInstruction s outcome).2.executing = false) := by
  refine ⟨?_, ?_, ?_, ?_, ?_⟩
  · intro h
    simp [ChatWs.handleStop, h]
  · intro h hk
    simp [ChatWs.handleStop, h, hk]
  · intro h hk
    simp [ChatWs.handleStop, h, hk]
  · cases outcome <;> simp [ChatWs.handleInstruction]
  · cases outcome <;> simp [ChatWs.handleInstruction]

/-- Witness for C2's amended theorem: the three stop cases and the flag
clearing evaluated at concrete states. -/
theorem stop_request_and_flag_clearing_witness :
    (ChatWs.handleStop { cancelRequested := false, executing := false } true =
      (["stopped"], false, { cancelRequested := true, executing := false })) ∧
    ((ChatWs.handleStop { cancelRequested := false, executing := true } true).1 =
      ["stopped"]) ∧
    ((ChatWs.handleInstruction { cancelRequested := true, executing := true }
        ChatWs.GenOutcome.exn).2.cancelRequested = false) :=
  ⟨(stop_request_and_flag_clearing { cancelRequested := false, executing := false } true
      ChatWs.GenOutcome.exn).1 rfl,
   ((stop_request_and_flag_clearing { cancelRequested := false, executing := true } true
      ChatWs.GenOutcome.exn).2.1 rfl rfl).1,
   (stop_request_and_flag_clearing { cancelRequested := true, executing := true } true
      ChatWs.GenOutcome.exn).2.2.2.1⟩

/-- Counterexample to C3 as stated: on a no-provider turn with a stored
upstream handle, exactly one error Message is indeed emitted, but the stored
handle is not left unchanged — the turn's error handler pops it. -/
theorem no_provider_handle_counterexample :
    (ChatWs.handleTurnNoProvider (some "sess-1")).1.count "error" = 1 ∧
    ¬ (ChatWs.handleTurnNoProvider (some "sess-1")).2 = some "sess-1" := by
  decide

/-- C3 amended: an instruction with non-empty content on a conversation with
no provider configured produces exactly one error-kind Message for the turn,
and the stored upstream session handle is cleared by the turn's error
handler. -/
theorem no_provider_turn_spec (sessionStore : Option String) :
    (ChatWs.handleTurnNoProvider sessionStore).1.count "error" = 1 ∧
    (ChatWs.handleTurnNoProvider sessionStore).2 = none := by
  constructor <;> rfl

namespace BaseCLI

/-- Events observable by the caller of `BaseCLI.execute_with_streaming`:
messages yielded to it, and the `log_callback({"claude_session_id": None})`
call that clears the stored upstream handle before the stale-session retry
(base.py line 149). -/
inductive StreamEv where
  | yield (m : Msg)
  | clearSession
deriving DecidableEq

/-- Embedding of the first-attempt loop of `execute_with_streaming`
(base.py lines 130-144) over the message list the inner `_run_streaming`
generator produced: threads `got_assistant_content` and `held_result_msg`,
holding back a `session_complete` seen on a resumed attempt before any
assistant chat; returns the yielded messages, the final
`got_assistant_content`, and the final held message. -/
def drainFirstAttempt (attemptedResume : Bool) :
    List Msg → Bool → Option Msg → List Msg × Bool × Option Msg
  | [], got, held => ([], got, held)
  | m :: rest, got, held =>
    let got2 := got || (m.role == "assistant" && m.mtype == "chat")
    if m.mtype == "session_complete" && attemptedResume && !got2 then
      drainFirstAttempt attemptedResume rest got2 (some m)
    else
      let res := drainFirstAttempt attemptedResume rest got2 held
      (m :: res.1, res.2.1, res.2.2)

/-- Embedding of `BaseCLI.execute_with_streaming` (base.py lines 78-158)
around its two `_run_streaming` invocations, which are abstracted into the
message lists `run1` and `run2` they would yield: `attemptedResume` is
`options.resume is not None` (line 131), `isClear` is the `/clear` test
(line 116).  After draining the first attempt, a resumed non-clear attempt
with no assistant chat clears the stored handle and replays the same
instruction with `options.resume = None`, streaming `run2` unconditionally;
otherwise any held `session_complete` is released.  The Bool records whether
the stale-session retry ran. -/
def execute_with_streaming (attemptedResume isClear : Bool)
    (run1 run2 : List Msg) : List StreamEv × Bool :=
  let res := drainFirstAttempt attemptedResume run1 false none
  if !res.2.1 && attemptedResume && !isClear then
    (res.1.map StreamEv.yield ++ [StreamEv.clearSession] ++ run2.map StreamEv.yield, true)
  else
    (res.1.map StreamEv.yield ++ res.2.2.toList.map StreamEv.yield, false)

/-- Draining a first attempt that contains no chat-kind message yields
exactly the non-`session_complete` messages in order, with
`got_assistant_content` still false. -/
theorem drainFirstAttempt_no_chat :
    ∀ (l : List Msg) (held0 : Option Msg),
      (∀ m ∈ l, (m.mtype == "chat") = false) →
      ∃ hfin, drainFirstAttempt true l false held0 =
        (l.filter (fun m => !(m.mtype == "session_complete")), false, hfin) := by
  intro l
  induction l with
  | nil => intro held0 h; exact ⟨held0, rfl⟩
  | cons m rest ih =>
    intro held0 h
    have hm : (m.mtype == "chat") = false := h m (List.mem_cons_self m rest)
    have hrest : ∀ x ∈ rest, (x.mtype == "chat") = false :=
      fun x hx => h x (List.mem_cons_of_mem m hx)
    by_cases hsc : (m.mtype == "session_complete") = true
    · obtain ⟨hf, heq⟩ := ih (some m) hrest
      exact ⟨hf, by simp [drainFirstAttempt, hm, hsc, heq]⟩
    · obtain ⟨hf, heq⟩ := ih held0 hrest
      refine ⟨hf, ?_⟩
      simp only [Bool.not_eq_true] at hsc
      simp [drainFirstAttempt, hm, hsc, heq]

/-- The final `got_assistant_content` of a drained attempt is its initial
value or-ed with the presence of an assistant chat message in the stream. -/
theorem drainFirstAttempt_got (l : List Msg) :
    ∀ (got0 : Bool) (held0 : Option Msg),
      (drainFirstAttempt true l got0 held0).2.1 =
        (got0 || l.any (fun m => m.role == "assistant" && m.mtype == "chat")) := by
  induction l with
  | nil => intro g h; simp [drainFirstAttempt]
  | cons m rest ih =>
    intro g h
    simp only [drainFirstAttempt]
    split
    · rw [ih]
      simp [Bool.or_assoc]
    · simp only
      rw [ih]
      simp [Bool.or_assoc]

end BaseCLI

/-- C1: on a stateful-agent attempt that resumed an upstream handle
(`attemptedResume = true`) with an instruction other than `/clear`, if the
first Runner stream yields no chat-kind message then the caller receives
exactly the non-`session_complete` messages of that attempt (so its
`session_complete` is never relayed), followed by the handle-clearing
callback, followed by the entire retry stream relayed without any second
staleness check, and the retry flag is set; if the attempt yields at least
one chat message, no retry and no handle-clearing occur. -/
theorem stale_session_retry (run1 run2 : List Msg)
    (hwf : ∀ m ∈ run1, m.mtype = "chat" → m.role = "assistant") :
    (run1.countP (fun m => m.mtype == "chat") = 0 →
      BaseCLI.execute_with_streaming true false run1 run2 =
        ((run1.filter (fun m => !(m.mtype == "session_complete"))).map BaseCLI.StreamEv.yield
           ++ [BaseCLI.StreamEv.clearSession] ++ run2.map BaseCLI.StreamEv.yield, true)) ∧
    (0 < run1.countP (fun m => m.mtype == "chat") →
      (BaseCLI.execute_with_streaming true false run1 run2).2 = false ∧
      BaseCLI.StreamEv.clearSession ∉ (BaseCLI.execute_with_streaming true false run1 run2).1) := by
  constructor
  · intro h0
    have hnone : ∀ m ∈ run1, (m.mtype == "chat") = false := by
      intro m hm
      have := List.countP_eq_zero.mp h0 m hm
      simpa using this
    obtain ⟨hf, heq⟩ := BaseCLI.drainFirstAttempt_no_chat run1 none hnone
    simp [BaseCLI.execute_with_streaming, heq]
  · intro hpos
    obtain ⟨m, hm, hchat⟩ := List.countP_pos_iff.mp hpos
    have hrole : m.role = "assistant" := hwf m hm (by simpa using hchat)
    have hany : run1.any (fun m => m.role == "assistant" && m.mtype == "chat") = true := by
      rw [List.any_eq_true]
      exact ⟨m, hm, by simp [hrole, beq_iff_eq]; simpa using hchat⟩
    have hgot : (BaseCLI.drainFirstAttempt true run1 false none).2.1 = true := by
      rw [BaseCLI.drainFirstAttempt_got]
      simp [hany]
    constructor
    · simp [BaseCLI.execute_with_streaming, hgot]
    · simp [BaseCLI.execute_with_streaming, hgot]

/-- Witness for C1: a resumed attempt consisting of an init system message
and a `session_complete` only, retried with a fresh stream that chats. -/
theorem stale_session_retry_witness :
    BaseCLI.execute_with_streaming true false
        [{ role := "system", mtype := "system", content := "init" },
         { role := "system", mtype := "session_complete", content := "done" }]
        [{ role := "assistant", mtype := "chat", content := "hi" },
         { role := "system", mtype := "session_complete", content := "done2" }] =
      (([{ role := "system", mtype := "system", content := "init" },
          { role := "system", mtype := "session_complete", content := "done" }].filter
            (fun m => !(m.mtype == "session_complete"))).map BaseCLI.StreamEv.yield
         ++ [BaseCLI.StreamEv.clearSession]
         ++ [{ role := "assistant", mtype := "chat", content := "hi" },
             { role := "system", mtype := "session_complete", content := "done2" }].map
              BaseCLI.StreamEv.yield, true) :=
  (stale_session_retry
      [{ role := "system", mtype := "system", content := "init" },
       { role := "system", mtype := "session_complete", content := "done" }]
      [{ role := "assistant", mtype := "chat", content := "hi" },
       { role := "system", mtype := "session_complete", content := "done2" }]
      (by decide)).1 (by decide)
